import Mathlib

/-!
Verification of the AutoNacional automation/orchestration engine
(Backend/scripts/automation/processar_notas_competencia_sync.py,
Backend/scripts/automation/playwright_nfse.py,
Backend/src/services/execution_service.py, Backend/src/models/execucao.py)
against its design specification.

The Python code is shallowly embedded: pure helpers become Lean functions
on String / List Char; the browser, the portal and the credential store are
modelled as an explicit environment record; the worker's run flow becomes a
pure function from that environment and the initial run record to a result
record. Machine details that the claims do not touch (wall-clock
timestamps, log-line timestamp prefixes, OS processes) are abstracted:
logging keeps the message text only. Character classes of Python regexes
and str.lower are modelled on ASCII (the inputs of the claims are ASCII).
-/

/-- Whitespace class: models Python's regex class backslash-s and the
default str.strip set, restricted to ASCII. -/
def ehEspaco (c : Char) : Bool :=
  c == ' ' || c == '\t' || c == '\n' || c == '\r' || c == '\x0b' || c == '\x0c'

/-- Word-character class: models Python's regex class backslash-w (ASCII). -/
def ehCaractereDePalavra (c : Char) : Bool :=
  c.isAlphanum || c == '_'

/-- Containment of a character list as a contiguous run inside another,
modelling Python's substring operator needle in haystack. -/
def subLista (agulha : List Char) : List Char → Bool
  | [] => agulha.isEmpty
  | c :: resto => agulha.isPrefixOf (c :: resto) || subLista agulha resto

/-- Substring test on strings: contemSub palheiro agulha is true when
agulha occurs contiguously in palheiro. -/
def contemSub (palheiro agulha : String) : Bool :=
  subLista agulha.data palheiro.data

/-- ASCII model of Python's str.lower. -/
def minusculaStr (s : String) : String :=
  String.mk (s.data.map Char.toLower)

/-- Removal of trailing whitespace, the right half of Python's str.strip. -/
def rstripLista : List Char → List Char
  | [] => []
  | c :: r =>
    if (rstripLista r).isEmpty then (if ehEspaco c then [] else [c])
    else c :: rstripLista r

/-- Model of Python's str.strip on character lists. -/
def stripLista (l : List Char) : List Char :=
  rstripLista (l.dropWhile ehEspaco)

/-- Model of Python's str.strip. -/
def stripStr (s : String) : String :=
  String.mk (stripLista s.data)

/-- Characters kept by sanitizar_nome_pasta: the regex there removes
every character that is not in backslash-w, backslash-s or a hyphen. -/
def mantemPasta (c : Char) : Bool :=
  ehCaractereDePalavra c || ehEspaco c || c == '-'

/-- Replacement of each maximal whitespace run by the single character sub,
modelling re.sub of backslash-s+ with a one-character replacement. The flag
anterior records whether the previous input character was whitespace. -/
def colapsarEspacosAux (sub : Char) : Bool → List Char → List Char
  | _, [] => []
  | anterior, c :: r =>
    if ehEspaco c then
      if anterior then colapsarEspacosAux sub true r
      else sub :: colapsarEspacosAux sub true r
    else c :: colapsarEspacosAux sub false r

/-- Entry point of the whitespace-run collapse. -/
def colapsarEspacos (sub : Char) (l : List Char) : List Char :=
  colapsarEspacosAux sub false l

/-- List-level body of sanitizar_nome_pasta: strip, remove characters
outside backslash-w, backslash-s and hyphen, collapse whitespace runs to
one space (processar_notas_competencia_sync.py lines 65-80). -/
def sanitizarPastaLista (l : List Char) : List Char :=
  colapsarEspacos ' ' ((stripLista l).filter mantemPasta)

/-- Embedding of sanitizar_nome_pasta from
processar_notas_competencia_sync.py lines 65-80. -/
def sanitizar_nome_pasta (nome : String) : String :=
  String.mk (sanitizarPastaLista nome.data)

/-- Characters replaced by sanitizar_nome_arquivo's first regex. -/
def caractereInvalidoArquivo (c : Char) : Bool :=
  c == '<' || c == '>' || c == ':' || c == '"' || c == '/' ||
  c == '\\' || c == '|' || c == '?' || c == '*'

/-- Replacement of one file-name-invalid character by an underscore. -/
def substituirInvalidos (c : Char) : Char :=
  if caractereInvalidoArquivo c then '_' else c

/-- List-level body of sanitizar_nome_arquivo: replace invalid characters
by underscores, collapse whitespace runs to one underscore, strip
(processar_notas_competencia_sync.py lines 48-62). -/
def sanitizarArquivoLista (l : List Char) : List Char :=
  stripLista (colapsarEspacos '_' (l.map substituirInvalidos))

/-- Embedding of sanitizar_nome_arquivo from
processar_notas_competencia_sync.py lines 48-62. -/
def sanitizar_nome_arquivo (nome : String) : String :=
  String.mk (sanitizarArquivoLista nome.data)

/-- First character is not whitespace (vacuously true for the empty list). -/
def cabecaNaoEspaco : List Char → Bool
  | [] => true
  | c :: _ => !ehEspaco c

/-- All whitespace in the list is a single plain space never followed by
more whitespace: the invariant produced by the space-collapse pass. -/
def espacosNormalizados : List Char → Bool
  | [] => true
  | c :: r => (!ehEspaco c || (c == ' ' && cabecaNaoEspaco r)) && espacosNormalizados r

/-- Status image of a table row: the alt and src attributes the heuristic
reads (absent attribute = none, as query get_attribute returns None). -/
structure ImagemStatus where
  alt : Option String
  src : Option String
deriving DecidableEq

/-- One discovered table row: the accounting-period cell text (third
column, raw, before strip) and the optional status image of the sixth
column. Other cells are not read by the embedded logic. -/
structure LinhaTabela where
  competencia : String
  imgStatus : Option ImagemStatus
deriving DecidableEq

/-- Keywords that mark the alt attribute as cancelled/invalid
(processar_notas_competencia_sync.py line 881). -/
def palavrasInvalidasAlt : List String := ["cancelada", "cancel", "inválida", "invalid"]

/-- Keywords that mark the src attribute as cancelled/invalid
(processar_notas_competencia_sync.py line 886). -/
def palavrasInvalidasSrc : List String := ["cancel", "invalid"]

/-- Embedding of verificar_nota_valida
(processar_notas_competencia_sync.py lines 855-897): with no status image
the row is valid; with an image it is invalid exactly when the lowered alt
contains one of the alt keywords or the lowered src contains one of the
src keywords. An empty attribute is skipped in Python; since the empty
string contains no keyword the embedding folds that case in. -/
def verificar_nota_valida (linha : LinhaTabela) : Bool :=
  match linha.imgStatus with
  | none => true
  | some img =>
    let altInvalida :=
      match img.alt with
      | some a => palavrasInvalidasAlt.any (fun p => contemSub (minusculaStr a) p)
      | none => false
    let srcInvalida :=
      match img.src with
      | some s => palavrasInvalidasSrc.any (fun p => contemSub (minusculaStr s) p)
      | none => false
    !(altInvalida || srcInvalida)

/-- Row matching test of the scanners: the stripped period cell must equal
the target exactly (processar_notas_competencia_sync.py lines 1256-1259). -/
def corresponde (alvo : String) (linha : LinhaTabela) : Bool :=
  stripStr linha.competencia == alvo

/-- One rendered page of the results table. -/
abbrev Pagina := List LinhaTabela

/-- Embedding of the processar_tabela_emitidas page loop
(processar_notas_competencia_sync.py lines 1225-1372). The argument is
the stream of pages the portal would serve; the next-page control exists
and is enabled exactly when a further page follows in the stream. The
result is the list of rows for which baixar_arquivos_da_linha (Download
Capture) is invoked, in order, and the number of pages scanned. Browser
waits and per-row exception recovery have no pure counterpart; the
deterministic reads always succeed. -/
def processar_tabela_emitidas (alvo : String) : List Pagina → List LinhaTabela × Nat
  | [] => ([], 0)
  | pg :: resto =>
    if h : pg = [] then ([], 1)
    else
      let invocadas := pg.filter (fun l => corresponde alvo l && verificar_nota_valida l)
      if pg.any (corresponde alvo) && corresponde alvo (pg.getLast h) && !resto.isEmpty then
        let r := processar_tabela_emitidas alvo resto
        (invocadas ++ r.1, 1 + r.2)
      else (invocadas, 1)

/-- Embedding of processar_tabela_recebidas
(processar_notas_competencia_sync.py lines 1375-1532); the source
duplicates the issued-table loop with the same period/validity logic. -/
def processar_tabela_recebidas (alvo : String) : List Pagina → List LinhaTabela × Nat
  | [] => ([], 0)
  | pg :: resto =>
    if h : pg = [] then ([], 1)
    else
      let invocadas := pg.filter (fun l => corresponde alvo l && verificar_nota_valida l)
      if pg.any (corresponde alvo) && corresponde alvo (pg.getLast h) && !resto.isEmpty then
        let r := processar_tabela_recebidas alvo resto
        (invocadas ++ r.1, 1 + r.2)
      else (invocadas, 1)

/-- Number of leading pages needed to cover the first n rows of the
stream; used to bound how far the scanner paginates. -/
def paginasParaCobrir : Nat → List Pagina → Nat
  | _, [] => 0
  | n, pg :: resto => if n ≤ pg.length then 1 else 1 + paginasParaCobrir (n - pg.length) resto

/-- Embedding of the direct-download classification step of
baixar_arquivo_direto_sync (processar_notas_competencia_sync.py lines
429-463): first the lowered content-type header is searched for xml then
pdf; only when that yields nothing, or the header is exactly
application/octet-stream, the first bytes are sniffed, with .bin as final
fallback. Bytes are modelled as characters. -/
def detectar_extensao_download_direto (contentTypeRecebido : String) (conteudo : List Char) : String :=
  let content_type := minusculaStr contentTypeRecebido
  let extensaoHeader : Option String :=
    if contemSub content_type "xml" then some ".xml"
    else if contemSub content_type "pdf" then some ".pdf"
    else none
  if extensaoHeader.isNone || content_type == "application/octet-stream" then
    let primeiros_bytes := conteudo.take 10
    if "<?xml".data.isPrefixOf primeiros_bytes || "<".data.isPrefixOf primeiros_bytes then ".xml"
    else if "%PDF".data.isPrefixOf primeiros_bytes then ".pdf"
    else ".bin"
  else extensaoHeader.getD ".bin"

/-- Run states of models/execucao.py (StatusExecucao). -/
inductive StatusExecucao where
  | pendente
  | em_execucao
  | concluido
  | falhou
  | cancelado
deriving DecidableEq

/-- Run stages of models/execucao.py (EtapaExecucao). -/
inductive EtapaExecucao where
  | inicio
  | autenticacao
  | processamento_emitidas
  | processamento_recebidas
  | finalizacao
deriving DecidableEq

/-- String value of a status, as serialized by obter_status. -/
def statusValor : StatusExecucao → String
  | StatusExecucao.pendente => "pendente"
  | StatusExecucao.em_execucao => "em_execucao"
  | StatusExecucao.concluido => "concluido"
  | StatusExecucao.falhou => "falhou"
  | StatusExecucao.cancelado => "cancelado"

/-- String value of a stage, as serialized by obter_status. -/
def etapaValor : EtapaExecucao → String
  | EtapaExecucao.inicio => "inicio"
  | EtapaExecucao.autenticacao => "autenticacao"
  | EtapaExecucao.processamento_emitidas => "processamento_emitidas"
  | EtapaExecucao.processamento_recebidas => "processamento_recebidas"
  | EtapaExecucao.finalizacao => "finalizacao"

/-- Embedding of models/execucao.py ExecucaoInfo. Wall-clock fields
(data_inicio, data_fim) are abstracted away; the transient Playwright
handles page/context/browser/playwright become opaque numeric handles. -/
structure ExecucaoInfo where
  empresa_id : String
  cnpj : String
  competencia : String
  tipo : String := "ambas"
  status : StatusExecucao := StatusExecucao.pendente
  etapa_atual : EtapaExecucao := EtapaExecucao.inicio
  progresso : Nat := 0
  logs : List String := []
  mensagem : String := "Aguardando execução..."
  erro : Option String := none
  url_atual : Option String := none
  titulo : Option String := none
  headless : Bool := false
  page : Option Nat := none
  context : Option Nat := none
  browser : Option Nat := none
  playwright : Option Nat := none
deriving DecidableEq

/-- Embedding of ExecutionService adicionar_log (execution_service.py
lines 423-428): appends the message to the run's log sequence. The
wall-clock timestamp prefix of the original is abstracted away. -/
def adicionar_log (e : ExecucaoInfo) (mensagem : String) : ExecucaoInfo :=
  { e with logs := e.logs ++ [mensagem] }

/-- Result dictionary of abrir_dashboard_nfse
(scripts/automation/playwright_nfse.py lines 380-390), together with the
open/closed state of the Playwright objects the dictionary references.
recursosAbertos is not a dictionary key: it models whether the returned
page/context/browser/playwright objects are still usable, which the
finally block of abrir_dashboard_nfse (lines 399-432) decides before the
dictionary reaches the caller. -/
structure ResultadoAuth where
  sucesso : Bool
  url_atual : String
  titulo : String
  mensagem : String
  logs : List String
  page : Option Nat := none
  context : Option Nat := none
  browser : Option Nat := none
  playwright : Option Nat := none
  recursosAbertos : Bool := true
deriving DecidableEq

/-- Environment record: the behavior of the external collaborators during
one run. certificadoEncontrado is the credential-store lookup outcome;
resultadoAuth is what the try body of abrir_dashboard_nfse builds when
the certificate loads, before the finally block runs; the page streams
are what the portal serves for each direction. -/
structure Portal where
  certificadoEncontrado : Bool
  resultadoAuth : ResultadoAuth
  paginasEmitidas : List Pagina
  paginasRecebidas : List Pagina
deriving DecidableEq

/-- A raised Python exception: whether its class/content marks it as an
authentication failure, and its message. -/
structure Excecao where
  deAutenticacao : Bool
  msg : String
deriving DecidableEq

/-- Embedding of abrir_dashboard_nfse
(scripts/automation/playwright_nfse.py lines 189-432): when the
credential store has no certificate, criar_contexto_com_certificado
raises NFSeAutenticacaoError and the outer handler rewraps its message.
Otherwise the environment's authentication result is returned, after the
finally block of lines 399-432 runs: in headless mode it closes
page/context/browser, stops Playwright and appends the release log line,
so the dictionary reaches the caller with its objects already closed
(recursosAbertos false); in non-headless mode it appends the keep-open
lines and the objects stay usable. The dictionary and the finally share
the same logs list, so the returned logs include the finally lines. -/
def abrir_dashboard_nfse (portal : Portal) (cnpj : String) (headless : Bool) :
    Except Excecao ResultadoAuth :=
  if portal.certificadoEncontrado then
    let ra := portal.resultadoAuth
    if headless then
      Except.ok { ra with recursosAbertos := false,
                          logs := ra.logs ++ ["🧹 Recursos liberados (modo headless)"] }
    else
      Except.ok { ra with recursosAbertos := true,
                          logs := ra.logs ++
                            ["🌐 Navegador mantido aberto para visualização",
                             "   O navegador será fechado quando o script terminar"] }
  else Except.error
    { deAutenticacao := true,
      msg := "Erro durante automação NFSe: Certificado não encontrado para CNPJ " ++ cnpj }

/-- Embedding of the except branch of _executar_fluxo_completo
(execution_service.py lines 405-417): classify the exception, set
status/erro/mensagem, and append the error log line. -/
def falhar_execucao (e : ExecucaoInfo) (exc : Excecao) : ExecucaoInfo :=
  let erroMsg :=
    if exc.deAutenticacao || contemSub (minusculaStr exc.msg) "autenticação" then
      "Erro de autenticação: " ++ exc.msg
    else
      "Erro na etapa " ++ etapaValor e.etapa_atual ++ ": " ++ exc.msg
  adicionar_log
    { e with status := StatusExecucao.falhou, erro := some erroMsg, mensagem := erroMsg }
    ("❌ ERRO: " ++ erroMsg)

/-- Embedding of ExecutionService limpar_recursos (execution_service.py
lines 430-467): in headless mode each held handle is closed (returned in
the closed list) and the headless log line is appended; otherwise nothing
is closed and the keep-open line is appended. The handle fields of the
run record are not assigned in either branch, exactly as in the source. -/
def limpar_recursos (e : ExecucaoInfo) : ExecucaoInfo × List Nat :=
  if e.headless then
    (adicionar_log e "🧹 Recursos liberados (modo headless)",
     [e.page, e.context, e.browser, e.playwright].filterMap id)
  else
    (adicionar_log e "🌐 Navegador mantido aberto para visualização", [])

/-- Embedding of the competência conversion of _executar_fluxo_completo
(execution_service.py lines 322-334): a six-character all-digit value
MMAAAA becomes MM/AAAA, anything else is used as is. Python str.isdigit
is modelled on ASCII digits. -/
def converter_competencia (competencia : String) : String :=
  if competencia.length == 6 && competencia.data.all Char.isDigit then
    String.mk (competencia.data.take 2 ++ '/' :: competencia.data.drop 2)
  else competencia

/-- Run outcome before resource cleanup: the run record, the rows for
which the downloader wrote an XML+PDF pair, per direction, and the period
target handed to the table scanners (none when no scan was reached). -/
structure ResultadoNucleo where
  execucao : ExecucaoInfo
  notasEmitidasBaixadas : List LinhaTabela := []
  notasRecebidasBaixadas : List LinhaTabela := []
  competenciaAlvo : Option String := none
deriving DecidableEq

/-- Sets the final-success fields of ETAPA 4 of _executar_fluxo_completo
(execution_service.py lines 397-403). -/
def concluir_execucao (e : ExecucaoInfo) : ExecucaoInfo :=
  adicionar_log
    { e with etapa_atual := EtapaExecucao.finalizacao, progresso := 100,
             status := StatusExecucao.concluido,
             mensagem := "Execução concluída com sucesso" }
    "🎉 Execução concluída com sucesso"

/-- The exception a Playwright page operation raises when the page was
already closed: the first wait_for of processar_notas (or of the
per-direction menu navigation) fails this way when the run is headless,
because the finally of abrir_dashboard_nfse closed the page before
returning it. -/
def msgPaginaFechada : String :=
  "Page.wait_for: Target page, context or browser has been closed"

/-- Embedding of the inner note-processing except of
_executar_fluxo_completo (execution_service.py lines 390-394) for the
closed-page exception: it logs the wrapped message and re-raises the
original exception, which the outer except then classifies as a generic
stage error. -/
def falhar_pagina_fechada (e : ExecucaoInfo) : ResultadoNucleo :=
  let e := adicionar_log e ("❌ Erro ao processar notas: " ++ msgPaginaFechada)
  { execucao := falhar_execucao e { deAutenticacao := false, msg := msgPaginaFechada } }

/-- Embedding of the part of _executar_fluxo_completo that runs after
abrir_dashboard_nfse returned its result dictionary (execution_service.py
lines 283-403): success check, handle storage, period conversion and the
per-direction table scans. Each scan branch starts with page operations,
so when the authentication returned its handles already closed (headless
mode) the branch raises before any download and the run fails at the
processing stage; a tipo outside the three handled values performs no
page operation at all and falls through to the success epilogue. Import
steps always succeed in the embedding. -/
def processar_apos_autenticacao (portal : Portal) (e0 : ExecucaoInfo) (ra : ResultadoAuth) :
    ResultadoNucleo :=
  let e := adicionar_log e0 "abrir_dashboard_nfse concluído"
  if !ra.sucesso then
    { execucao := falhar_execucao e
        { deAutenticacao := true, msg := "Falha na autenticação: " ++ ra.mensagem } }
  else
    let e := { e with page := ra.page, context := ra.context, browser := ra.browser,
                      playwright := ra.playwright, url_atual := some ra.url_atual,
                      titulo := some ra.titulo }
          let e := ra.logs.foldl adicionar_log e
          let e := { e with progresso := 30, mensagem := "Autenticação concluída com sucesso" }
          let e := adicionar_log e "✅ Autenticação concluída"
          if e.page = none then
            { execucao := falhar_execucao e
                { deAutenticacao := false,
                  msg := "Página do navegador não foi criada corretamente" } }
          else
            let e := { e with
              etapa_atual :=
                if e.tipo = "emitidas" || e.tipo = "ambas" then
                  EtapaExecucao.processamento_emitidas
                else EtapaExecucao.processamento_recebidas,
              progresso := 40,
              mensagem := "Processando notas (" ++ e.tipo ++ ")..." }
            let e := adicionar_log e ("Etapa 2-3: Processando notas (" ++ e.tipo ++ ")")
            let alvo := converter_competencia e.competencia
            let e :=
              if e.competencia.length == 6 && e.competencia.data.all Char.isDigit then
                adicionar_log e ("Competência convertida: " ++ e.competencia ++ " -> " ++ alvo)
              else
                adicionar_log e ("Competência já no formato correto: " ++ alvo)
            let e := adicionar_log e "Função processar_notas importada"
            if e.tipo = "ambas" then
              if ra.recursosAbertos = false then falhar_pagina_fechada e
              else
              let emitidas := (processar_tabela_emitidas alvo portal.paginasEmitidas).1
              let recebidas := (processar_tabela_recebidas alvo portal.paginasRecebidas).1
              let e := { e with progresso := 90,
                                mensagem := "Notas emitidas e recebidas processadas com sucesso" }
              let e := adicionar_log e "✅ Notas emitidas e recebidas processadas"
              { execucao := concluir_execucao e,
                notasEmitidasBaixadas := emitidas,
                notasRecebidasBaixadas := recebidas,
                competenciaAlvo := some alvo }
            else if e.tipo = "emitidas" then
              if ra.recursosAbertos = false then falhar_pagina_fechada e
              else
              let emitidas := (processar_tabela_emitidas alvo portal.paginasEmitidas).1
              let e := { e with progresso := 90,
                                mensagem := "Notas emitidas processadas com sucesso" }
              let e := adicionar_log e "✅ Notas emitidas processadas"
              { execucao := concluir_execucao e,
                notasEmitidasBaixadas := emitidas,
                competenciaAlvo := some alvo }
            else if e.tipo = "recebidas" then
              if ra.recursosAbertos = false then falhar_pagina_fechada e
              else
              let recebidas := (processar_tabela_recebidas alvo portal.paginasRecebidas).1
              let e := { e with progresso := 90,
                                mensagem := "Notas recebidas processadas com sucesso" }
              let e := adicionar_log e "✅ Notas recebidas processadas"
              { execucao := concluir_execucao e,
                notasRecebidasBaixadas := recebidas,
                competenciaAlvo := some alvo }
            else
              { execucao := concluir_execucao e }

/-- Embedding of the try body of _executar_fluxo_completo
(execution_service.py lines 219-417), before the finally cleanup:
initial state, CNPJ validation, authentication, then the post-auth
stage processar_apos_autenticacao. -/
def executar_fluxo_nucleo (portal : Portal) (e0 : ExecucaoInfo) : ResultadoNucleo :=
  let e := { e0 with status := StatusExecucao.em_execucao,
                     etapa_atual := EtapaExecucao.autenticacao,
                     progresso := 10,
                     mensagem := "Iniciando autenticação..." }
  if e.cnpj = "" then
    { execucao := falhar_execucao e
        { deAutenticacao := false,
          msg := "CNPJ não pode ser None para empresa " ++ e.empresa_id } }
  else
    let cnpj_str := stripStr e.cnpj
    if cnpj_str = "" || cnpj_str.length ≠ 14 then
      { execucao := falhar_execucao e
          { deAutenticacao := false,
            msg := "CNPJ inválido: " ++ e.cnpj ++ " (empresa " ++ e.empresa_id ++ ")" } }
    else
      let e := adicionar_log e ("Etapa 1: Autenticação para CNPJ " ++ cnpj_str)
      let e := adicionar_log e "Funções do Playwright importadas"
      let e := adicionar_log e "Chamando abrir_dashboard_nfse..."
      match abrir_dashboard_nfse portal cnpj_str e.headless with
      | Except.error exc =>
        let e := adicionar_log e ("❌ Erro ao executar abrir_dashboard_nfse: " ++ exc.msg)
        { execucao := falhar_execucao e exc }
      | Except.ok ra => processar_apos_autenticacao portal e ra

/-- Full run outcome: the run record after cleanup, the written document
pairs per direction, the scan target and the closed resource handles. -/
structure ResultadoFluxo where
  execucao : ExecucaoInfo
  notasEmitidasBaixadas : List LinhaTabela
  notasRecebidasBaixadas : List LinhaTabela
  competenciaAlvo : Option String
  recursosFechados : List Nat
deriving DecidableEq

/-- Embedding of _executar_fluxo_completo (execution_service.py lines
219-421): the try body followed by the unconditional finally cleanup. -/
def executar_fluxo_completo (portal : Portal) (e0 : ExecucaoInfo) : ResultadoFluxo :=
  let nucleo := executar_fluxo_nucleo portal e0
  let limpeza := limpar_recursos nucleo.execucao
  { execucao := limpeza.1,
    notasEmitidasBaixadas := nucleo.notasEmitidasBaixadas,
    notasRecebidasBaixadas := nucleo.notasRecebidasBaixadas,
    competenciaAlvo := nucleo.competenciaAlvo,
    recursosFechados := limpeza.2 }

/-- Shared state of ExecutionService (execution_service.py lines 52-61):
the FIFO queue, the per-company status map (an association list whose
update replaces in place) and the worker-running flag. -/
structure EstadoService where
  fila : List ExecucaoInfo := []
  execucoes_ativas : List (String × ExecucaoInfo) := []
  rodando : Bool := false
deriving DecidableEq

/-- Dictionary assignment execucoes_ativas of empresa_id, modelled on an
association list: replace the existing entry or append a new one. -/
def atualizarAtivas : List (String × ExecucaoInfo) → String → ExecucaoInfo →
    List (String × ExecucaoInfo)
  | [], k, v => [(k, v)]
  | (k', v') :: resto, k, v =>
    if k' = k then (k, v) :: resto else (k', v') :: atualizarAtivas resto k v

/-- Dictionary lookup in the status map. -/
def buscarAtiva : List (String × ExecucaoInfo) → String → Option ExecucaoInfo
  | [], _ => none
  | (k', v') :: resto, k => if k' = k then some v' else buscarAtiva resto k

/-- The fresh ExecucaoInfo built by adicionar_execucao
(execution_service.py lines 104-111), after the strip normalizations of
lines 95-101; an absent headless argument falls back to the configured
default. -/
def novaExecucao (empresa_id cnpj competencia tipo : String) (headless : Option Bool)
    (headlessPadrao : Bool) : ExecucaoInfo :=
  { empresa_id := empresa_id, cnpj := stripStr cnpj, competencia := stripStr competencia,
    tipo := tipo, headless := headless.getD headlessPadrao }

/-- Embedding of ExecutionService adicionar_execucao (execution_service.py
lines 63-133): reject empty empresa_id, cnpj or competencia; otherwise
append a fresh attempt to the queue, store it in the status map under its
empresa_id, mark the worker running, and return the empresa_id. -/
def adicionar_execucao (s : EstadoService) (empresa_id cnpj competencia tipo : String)
    (headless : Option Bool) (headlessPadrao : Bool) : Except String (String × EstadoService) :=
  if empresa_id = "" then Except.error "empresa_id não pode ser None ou vazio"
  else if cnpj = "" then Except.error "cnpj não pode ser None ou vazio"
  else if competencia = "" then Except.error "competencia não pode ser None ou vazio"
  else
    let execucao := novaExecucao empresa_id cnpj competencia tipo headless headlessPadrao
    Except.ok (empresa_id,
      { fila := s.fila ++ [execucao],
        execucoes_ativas := atualizarAtivas s.execucoes_ativas empresa_id execucao,
        rodando := true })

/-- The status dictionary returned by obter_status (execution_service.py
lines 150-163); the two wall-clock fields are abstracted away. -/
structure StatusResposta where
  empresa_id : String
  cnpj : String
  status : String
  etapa_atual : String
  progresso : Nat
  logs : List String
  mensagem : String
  erro : Option String
  url_atual : Option String
  titulo : Option String
deriving DecidableEq

/-- Builds the snapshot dictionary of obter_status from a run record,
including its Python falsy-value fallbacks. -/
def montarStatus (e : ExecucaoInfo) : StatusResposta :=
  { empresa_id := e.empresa_id,
    cnpj := e.cnpj,
    status := statusValor e.status,
    etapa_atual := etapaValor e.etapa_atual,
    progresso := e.progresso,
    logs := e.logs,
    mensagem := if e.mensagem = "" then "Aguardando execução..." else e.mensagem,
    erro := match e.erro with
      | some m => if m = "" then none else some m
      | none => none,
    url_atual := match e.url_atual with
      | some m => if m = "" then none else some m
      | none => none,
    titulo := match e.titulo with
      | some m => if m = "" then none else some m
      | none => none }

/-- Embedding of ExecutionService obter_status (execution_service.py
lines 135-163). -/
def obter_status (s : EstadoService) (empresa_id : String) : Option StatusResposta :=
  match buscarAtiva s.execucoes_ativas empresa_id with
  | none => none
  | some e => some (montarStatus e)

/-- Concrete row: matching period, status image alt Cancelada. -/
def linhaCancelada : LinhaTabela :=
  { competencia := "11/2025", imgStatus := some { alt := some "Cancelada", src := none } }

/-- Concrete row: matching period, status image alt Emitida. -/
def linhaEmitidaValida : LinhaTabela :=
  { competencia := "11/2025", imgStatus := some { alt := some "Emitida", src := none } }

/-- Concrete row: matching period, no status image. -/
def linhaSemImagem : LinhaTabela :=
  { competencia := "11/2025", imgStatus := none }

/-- Concrete successful authentication result as the try body of
abrir_dashboard_nfse builds it, before the finally block appends its
resource log lines and settles the open/closed state of the handles. -/
def autenticacaoOk : ResultadoAuth :=
  { sucesso := true,
    url_atual := "https://www.nfse.gov.br/EmissorNacional/Dashboard",
    titulo := "NFS-e",
    mensagem := "Dashboard acessado com sucesso",
    logs :=
      ["🚀 Iniciando automação NFSe para CNPJ: 00000000000011",
       "📋 Criando contexto do navegador com certificado A1...",
       "✅ Contexto criado com sucesso",
       "📄 Criando nova página...",
       "✅ Página criada",
       "🌐 Acessando portal NFSe Nacional: https://www.nfse.gov.br/EmissorNacional/",
       "✅ Página carregada: https://www.nfse.gov.br/EmissorNacional/Dashboard",
       "✅ Já autenticado - dashboard detectado diretamente!",
       "📍 URL final: https://www.nfse.gov.br/EmissorNacional/Dashboard",
       "📝 Título final: NFS-e",
       "🎉 Autenticação bem-sucedida!"],
    page := some 1, context := some 2, browser := some 3, playwright := some 4 }

/-- Concrete environment of the end-to-end scenario: certificate found,
two issued rows in the target period (one valid, one cancelled), no
received rows. -/
def portalDoCenario : Portal :=
  { certificadoEncontrado := true,
    resultadoAuth := autenticacaoOk,
    paginasEmitidas := [[linhaEmitidaValida, linhaCancelada]],
    paginasRecebidas := [[]] }

/-- Concrete environment whose credential store has no certificate. -/
def portalSemCertificado : Portal :=
  { certificadoEncontrado := false,
    resultadoAuth := autenticacaoOk,
    paginasEmitidas := [],
    paginasRecebidas := [] }

/-- Concrete enqueued run of the end-to-end scenario. -/
def execucaoDoCenario : ExecucaoInfo :=
  { empresa_id := "1", cnpj := "00000000000011", competencia := "11/2025",
    tipo := "ambas", headless := true }

/-- The same enqueued run in non-headless mode: the authentication
returns its handles still open, so the scans run and the flow
completes. -/
def execucaoNaoHeadless : ExecucaoInfo :=
  { execucaoDoCenario with headless := false }

/-- Concrete row outside the target period. -/
def linhaForaDoPeriodo : LinhaTabela :=
  { competencia := "10/2025", imgStatus := none }

/-- Concrete run record holding all four browser handles, as stored by a
successful authentication. -/
def execucaoComRecursos : ExecucaoInfo :=
  { execucaoDoCenario with
    page := some 1, context := some 2, browser := some 3, playwright := some 4 }

/-- Concrete two-page stream whose matching block spans both pages and
ends mid-page: three rows of the target period (one cancelled), then an
older row. -/
def paginasTeste : List Pagina :=
  [[linhaEmitidaValida, linhaSemImagem], [linhaCancelada, linhaForaDoPeriodo]]

/-- The contiguous matching block of paginasTeste. -/
def blocoTeste : List LinhaTabela :=
  [linhaEmitidaValida, linhaSemImagem, linhaCancelada]

/-- Empty service state. -/
def estadoVazio : EstadoService := {}

/-- Concrete byte payload beginning with the PDF magic. -/
def conteudoPDF : List Char := "%PDF-1.4 exemplo de conteudo".data

/-- Concrete byte payload beginning with the XML declaration. -/
def conteudoXML : List Char := "<?xml versao=1.0?><Nota/>".data

theorem espacosNormalizados_cons {c : Char} {r : List Char} :
    espacosNormalizados (c :: r) =
      ((!ehEspaco c || (c == ' ' && cabecaNaoEspaco r)) && espacosNormalizados r) := rfl

theorem espacosNormalizados_nil : espacosNormalizados [] = true := rfl

theorem rstrip_cons (c : Char) (r : List Char) :
    rstripLista (c :: r) =
      if (rstripLista r).isEmpty then (if ehEspaco c then [] else [c])
      else c :: rstripLista r := rfl

theorem cabeca_colapsar_true (r : List Char) :
    cabecaNaoEspaco (colapsarEspacosAux ' ' true r) = true := by
  induction r with
  | nil => rfl
  | cons c r ih =>
    by_cases h : ehEspaco c = true
    · simp [colapsarEspacosAux, h, ih]
    · simp [colapsarEspacosAux, h, cabecaNaoEspaco]

theorem norm_colapsar (l : List Char) :
    ∀ b, espacosNormalizados (colapsarEspacosAux ' ' b l) = true := by
  induction l with
  | nil => intro b; rfl
  | cons c r ih =>
    intro b
    by_cases h : ehEspaco c = true
    · cases b with
      | true => simp [colapsarEspacosAux, h, ih]
      | false =>
        simp only [colapsarEspacosAux, h, if_pos, if_neg, Bool.false_eq_true, ite_true, ite_false]
        rw [espacosNormalizados_cons]
        simp [cabeca_colapsar_true, ih]
    · simp only [colapsarEspacosAux, h, Bool.false_eq_true, ite_false]
      rw [espacosNormalizados_cons]
      simp at h
      simp [h, ih]

theorem colapsar_de_normalizados (l : List Char) (h : espacosNormalizados l = true) :
    colapsarEspacosAux ' ' false l = l ∧
      (cabecaNaoEspaco l = true → colapsarEspacosAux ' ' true l = l) := by
  induction l with
  | nil => exact ⟨rfl, fun _ => rfl⟩
  | cons c r ih =>
    rw [espacosNormalizados_cons] at h
    simp only [Bool.and_eq_true] at h
    obtain ⟨hj, hr⟩ := h
    obtain ⟨ih1, ih2⟩ := ih hr
    by_cases hc : ehEspaco c = true
    · simp only [hc, Bool.not_true, Bool.false_or, Bool.and_eq_true, beq_iff_eq] at hj
      obtain ⟨hce, hcab⟩ := hj
      subst hce
      constructor
      · have he : ehEspaco ' ' = true := by decide
        simp [colapsarEspacosAux, he, ih2 hcab]
      · intro habs
        simp [cabecaNaoEspaco, ehEspaco] at habs
    · simp only [colapsarEspacosAux, hc, Bool.false_eq_true, ite_false]
      exact ⟨by rw [ih1], fun _ => by rw [ih1]⟩

theorem all_filter_self (p : Char → Bool) (l : List Char) :
    (l.filter p).all p = true := by
  induction l with
  | nil => rfl
  | cons c r ih =>
    by_cases h : p c = true
    · simp [List.filter_cons, h, ih]
    · simp [List.filter_cons, h, ih]

theorem filter_de_all (p : Char → Bool) (l : List Char) (h : l.all p = true) :
    l.filter p = l := by
  induction l with
  | nil => rfl
  | cons c r ih =>
    simp only [List.all_cons, Bool.and_eq_true] at h
    simp [List.filter_cons, h.1, ih h.2]

theorem all_colapsar (p : Char → Bool) (sub : Char) (hsub : p sub = true)
    (l : List Char) (h : l.all p = true) :
    ∀ b, (colapsarEspacosAux sub b l).all p = true := by
  induction l with
  | nil => intro b; rfl
  | cons c r ih =>
    intro b
    simp only [List.all_cons, Bool.and_eq_true] at h
    by_cases hc : ehEspaco c = true
    · cases b with
      | true => simp only [colapsarEspacosAux, hc, ite_true]; exact ih h.2 true
      | false =>
        simp only [colapsarEspacosAux, hc, ite_true, Bool.false_eq_true, ite_false]
        simp [hsub, ih h.2 true]
    · simp only [colapsarEspacosAux, hc, Bool.false_eq_true, ite_false]
      simp [h.1, ih h.2 false]

theorem all_dropWhile (p q : Char → Bool) (l : List Char) (h : l.all p = true) :
    (l.dropWhile q).all p = true := by
  induction l with
  | nil => rfl
  | cons c r ih =>
    simp only [List.all_cons, Bool.and_eq_true] at h
    by_cases hc : q c = true
    · simp [List.dropWhile_cons, hc, ih h.2]
    · simp [List.dropWhile_cons, hc, h.1, h.2]

theorem all_rstrip (p : Char → Bool) (l : List Char) (h : l.all p = true) :
    (rstripLista l).all p = true := by
  induction l with
  | nil => rfl
  | cons c r ih =>
    simp only [List.all_cons, Bool.and_eq_true] at h
    by_cases he : (rstripLista r).isEmpty = true
    · by_cases hc : ehEspaco c = true
      · simp [rstripLista, he, hc]
      · simp [rstripLista, he, hc, h.1]
    · simp [rstripLista, he, h.1, ih h.2]

theorem all_strip (p : Char → Bool) (l : List Char) (h : l.all p = true) :
    (stripLista l).all p = true :=
  all_rstrip p _ (all_dropWhile p ehEspaco l h)

theorem norm_dropWhile (l : List Char) (h : espacosNormalizados l = true) :
    espacosNormalizados (l.dropWhile ehEspaco) = true := by
  induction l with
  | nil => rfl
  | cons c r ih =>
    rw [espacosNormalizados_cons] at h
    simp only [Bool.and_eq_true] at h
    by_cases hc : ehEspaco c = true
    · simp [List.dropWhile_cons, hc, ih h.2]
    · simpa [List.dropWhile_cons, hc, espacosNormalizados_cons] using h

theorem cabeca_rstrip (l : List Char) (h : cabecaNaoEspaco l = true) :
    cabecaNaoEspaco (rstripLista l) = true := by
  cases l with
  | nil => rfl
  | cons c r =>
    simp only [cabecaNaoEspaco] at h
    by_cases he : (rstripLista r).isEmpty = true
    · by_cases hc : ehEspaco c = true
      · simp [hc] at h
      · simp [rstripLista, he, hc, cabecaNaoEspaco, h]
    · simp [rstripLista, he, cabecaNaoEspaco, h]

theorem rstrip_nao_vazio_cabeca (c : Char) (r : List Char)
    (h : rstripLista (c :: r) ≠ []) :
    cabecaNaoEspaco (c :: r) = cabecaNaoEspaco (rstripLista (c :: r)) := by
  by_cases he : (rstripLista r).isEmpty = true
  · by_cases hc : ehEspaco c = true
    · exfalso; apply h; simp [rstripLista, he, hc]
    · simp [rstripLista, he, hc, cabecaNaoEspaco]
  · simp [rstripLista, he, cabecaNaoEspaco]

theorem norm_rstrip (l : List Char) (h : espacosNormalizados l = true) :
    espacosNormalizados (rstripLista l) = true := by
  induction l with
  | nil => rfl
  | cons c r ih =>
    rw [espacosNormalizados_cons] at h
    simp only [Bool.and_eq_true] at h
    obtain ⟨hj, hr⟩ := h
    by_cases he : (rstripLista r).isEmpty = true
    · by_cases hc : ehEspaco c = true
      · rw [rstrip_cons, if_pos he, if_pos hc]
        rfl
      · rw [rstrip_cons, if_pos he, if_neg hc, espacosNormalizados_cons]
        simp only [Bool.not_eq_true] at hc
        simp [hc, espacosNormalizados_nil]
    · rw [rstrip_cons, if_neg he, espacosNormalizados_cons, Bool.and_eq_true]
      refine ⟨?_, ih hr⟩
      rcases Bool.or_eq_true _ _ |>.mp hj with hnc | hand
      · simp [hnc]
      · simp only [Bool.and_eq_true] at hand
        have hcab : cabecaNaoEspaco (rstripLista r) = true := cabeca_rstrip r hand.2
        simp [hand.1, hcab]

theorem norm_strip (l : List Char) (h : espacosNormalizados l = true) :
    espacosNormalizados (stripLista l) = true :=
  norm_rstrip _ (norm_dropWhile l h)

theorem cabeca_dropWhile (l : List Char) :
    cabecaNaoEspaco (l.dropWhile ehEspaco) = true := by
  induction l with
  | nil => rfl
  | cons c r ih =>
    by_cases hc : ehEspaco c = true
    · simp [List.dropWhile_cons, hc, ih]
    · simp [List.dropWhile_cons, hc, cabecaNaoEspaco]

theorem dropWhile_de_cabeca (l : List Char) (h : cabecaNaoEspaco l = true) :
    l.dropWhile ehEspaco = l := by
  cases l with
  | nil => rfl
  | cons c r =>
    simp only [cabecaNaoEspaco] at h
    simp only [Bool.not_eq_true'] at h
    simp [List.dropWhile_cons, h]

theorem rstrip_idem (l : List Char) :
    rstripLista (rstripLista l) = rstripLista l := by
  induction l with
  | nil => rfl
  | cons c r ih =>
    by_cases he : (rstripLista r).isEmpty = true
    · by_cases hc : ehEspaco c = true
      · rw [rstrip_cons, if_pos he, if_pos hc]
        rfl
      · rw [rstrip_cons, if_pos he, if_neg hc, rstrip_cons,
            if_pos (show (rstripLista ([] : List Char)).isEmpty = true from rfl), if_neg hc]
    · rw [rstrip_cons c r, if_neg he, rstrip_cons c (rstripLista r), ih, if_neg he]

theorem strip_idem (l : List Char) :
    stripLista (stripLista l) = stripLista l := by
  unfold stripLista
  have h1 : cabecaNaoEspaco (rstripLista (l.dropWhile ehEspaco)) = true := by
    cases hd : l.dropWhile ehEspaco with
    | nil => rfl
    | cons c r =>
      by_cases hne : rstripLista (c :: r) = []
      · rw [hne]; rfl
      · rw [← rstrip_nao_vazio_cabeca c r hne, ← hd]
        exact cabeca_dropWhile l
  rw [dropWhile_de_cabeca _ h1, rstrip_idem]

theorem pasta_lista_composta (l : List Char) :
    sanitizarPastaLista (sanitizarPastaLista l) = stripLista (sanitizarPastaLista l) := by
  have hnorm : espacosNormalizados (sanitizarPastaLista l) = true := norm_colapsar _ false
  have hall : (sanitizarPastaLista l).all mantemPasta = true :=
    all_colapsar mantemPasta ' ' (by decide) _ (all_filter_self mantemPasta _) false
  show colapsarEspacos ' ' ((stripLista (sanitizarPastaLista l)).filter mantemPasta) =
    stripLista (sanitizarPastaLista l)
  rw [filter_de_all mantemPasta _ (all_strip _ _ hall)]
  exact (colapsar_de_normalizados _ (norm_strip _ hnorm)).1

theorem pasta_lista_tripla (l : List Char) :
    sanitizarPastaLista (sanitizarPastaLista (sanitizarPastaLista l)) =
      sanitizarPastaLista (sanitizarPastaLista l) := by
  rw [pasta_lista_composta (sanitizarPastaLista l), pasta_lista_composta l, strip_idem,
      ← pasta_lista_composta l]

theorem all_colapsar_sem_espaco (sub : Char) (hsub : ehEspaco sub = false) (l : List Char) :
    ∀ b, (colapsarEspacosAux sub b l).all (fun c => !ehEspaco c) = true := by
  induction l with
  | nil => intro b; rfl
  | cons c r ih =>
    intro b
    by_cases hc : ehEspaco c = true
    · cases b with
      | true => simp only [colapsarEspacosAux, hc, ite_true]; exact ih true
      | false =>
        simp only [colapsarEspacosAux, hc, ite_true, Bool.false_eq_true, ite_false]
        simp [hsub, ih true]
    · simp only [colapsarEspacosAux, hc, Bool.false_eq_true, ite_false]
      simp only [Bool.not_eq_true] at hc
      simp [hc, ih false]

theorem all_map_substituir (l : List Char) :
    (l.map substituirInvalidos).all (fun c => !caractereInvalidoArquivo c) = true := by
  induction l with
  | nil => rfl
  | cons c r ih =>
    simp only [List.map_cons, List.all_cons, Bool.and_eq_true]
    refine ⟨?_, ih⟩
    by_cases hc : caractereInvalidoArquivo c = true
    · simp [substituirInvalidos, hc]
      decide
    · simp only [substituirInvalidos, hc, Bool.false_eq_true, ite_false]
      simp [Bool.not_eq_true] at hc
      simp [hc]

theorem map_substituir_id (l : List Char)
    (h : l.all (fun c => !caractereInvalidoArquivo c) = true) :
    l.map substituirInvalidos = l := by
  induction l with
  | nil => rfl
  | cons c r ih =>
    simp only [List.all_cons, Bool.and_eq_true] at h
    simp only [List.map_cons]
    have hc : caractereInvalidoArquivo c = false := by
      have := h.1; simp only [Bool.not_eq_true'] at this; exact this
    simp [substituirInvalidos, hc, ih h.2]

theorem colapsar_sem_espaco_id (sub : Char) (l : List Char)
    (h : l.all (fun c => !ehEspaco c) = true) :
    ∀ b, colapsarEspacosAux sub b l = l := by
  induction l with
  | nil => intro b; rfl
  | cons c r ih =>
    intro b
    simp only [List.all_cons, Bool.and_eq_true] at h
    have hc : ehEspaco c = false := by
      have := h.1; simp only [Bool.not_eq_true'] at this; exact this
    simp only [colapsarEspacosAux, hc, Bool.false_eq_true, ite_false]
    rw [ih h.2 false]

theorem rstrip_sem_espaco_id (l : List Char)
    (h : l.all (fun c => !ehEspaco c) = true) :
    rstripLista l = l := by
  induction l with
  | nil => rfl
  | cons c r ih =>
    simp only [List.all_cons, Bool.and_eq_true] at h
    have hc : ehEspaco c = false := by
      have := h.1; simp only [Bool.not_eq_true'] at this; exact this
    rw [rstrip_cons, ih h.2]
    cases r with
    | nil => simp [hc]
    | cons d r2 => simp

theorem strip_sem_espaco_id (l : List Char)
    (h : l.all (fun c => !ehEspaco c) = true) :
    stripLista l = l := by
  unfold stripLista
  have hdrop : l.dropWhile ehEspaco = l := by
    cases l with
    | nil => rfl
    | cons c r =>
      simp only [List.all_cons, Bool.and_eq_true] at h
      have hc : ehEspaco c = false := by
        have := h.1; simp only [Bool.not_eq_true'] at this; exact this
      simp [List.dropWhile_cons, hc]
  rw [hdrop, rstrip_sem_espaco_id l h]

theorem arquivo_lista_idem (l : List Char) :
    sanitizarArquivoLista (sanitizarArquivoLista l) = sanitizarArquivoLista l := by
  have hsem : (sanitizarArquivoLista l).all (fun c => !ehEspaco c) = true := by
    apply all_strip
    exact all_colapsar_sem_espaco '_' (by decide) _ false
  have hinval : (sanitizarArquivoLista l).all (fun c => !caractereInvalidoArquivo c) = true := by
    apply all_strip
    apply all_colapsar (fun c => !caractereInvalidoArquivo c) '_' (by decide)
    exact all_map_substituir l
  show stripLista (colapsarEspacos '_' ((sanitizarArquivoLista l).map substituirInvalidos)) =
    sanitizarArquivoLista l
  rw [map_substituir_id _ hinval]
  show stripLista (colapsarEspacosAux '_' false (sanitizarArquivoLista l)) = sanitizarArquivoLista l
  rw [colapsar_sem_espaco_id '_' _ hsem false, strip_sem_espaco_id _ hsem]

theorem processar_emitidas_cons (alvo : String) (pg : Pagina) (resto : List Pagina)
    (h : ¬pg = []) :
    processar_tabela_emitidas alvo (pg :: resto) =
      if pg.any (corresponde alvo) && corresponde alvo (pg.getLast h) && !resto.isEmpty then
        (pg.filter (fun l => corresponde alvo l && verificar_nota_valida l) ++
           (processar_tabela_emitidas alvo resto).1,
         1 + (processar_tabela_emitidas alvo resto).2)
      else (pg.filter (fun l => corresponde alvo l && verificar_nota_valida l), 1) := by
  rw [processar_tabela_emitidas]
  rw [dif_neg h]

theorem paginasParaCobrir_cons (n : Nat) (pg : Pagina) (resto : List Pagina) :
    paginasParaCobrir n (pg :: resto) =
      if n ≤ pg.length then 1 else 1 + paginasParaCobrir (n - pg.length) resto := rfl

theorem filtro_bloco2 (alvo : String) (P B : List LinhaTabela)
    (hP : ∀ l ∈ P, corresponde alvo l = false)
    (hB : ∀ l ∈ B, corresponde alvo l = true) :
    (P ++ B).filter (fun l => corresponde alvo l && verificar_nota_valida l) =
      B.filter verificar_nota_valida := by
  rw [List.filter_append]
  have h1 : P.filter (fun l => corresponde alvo l && verificar_nota_valida l) = [] :=
    List.filter_eq_nil_iff.mpr (fun a ha => by rw [hP a ha]; simp)
  have h2 : B.filter (fun l => corresponde alvo l && verificar_nota_valida l) =
      B.filter verificar_nota_valida :=
    List.filter_congr (fun x hx => by rw [hB x hx]; simp)
  rw [h1, h2, List.nil_append]

theorem filtro_bloco3 (alvo : String) (P B S1 : List LinhaTabela)
    (hP : ∀ l ∈ P, corresponde alvo l = false)
    (hB : ∀ l ∈ B, corresponde alvo l = true)
    (hS1 : ∀ l ∈ S1, corresponde alvo l = false) :
    (P ++ (B ++ S1)).filter (fun l => corresponde alvo l && verificar_nota_valida l) =
      B.filter verificar_nota_valida := by
  rw [List.filter_append, List.filter_append]
  have h1 : P.filter (fun l => corresponde alvo l && verificar_nota_valida l) = [] :=
    List.filter_eq_nil_iff.mpr (fun a ha => by rw [hP a ha]; simp)
  have h3 : S1.filter (fun l => corresponde alvo l && verificar_nota_valida l) = [] :=
    List.filter_eq_nil_iff.mpr (fun a ha => by rw [hS1 a ha]; simp)
  have h2 : B.filter (fun l => corresponde alvo l && verificar_nota_valida l) =
      B.filter verificar_nota_valida :=
    List.filter_congr (fun x hx => by rw [hB x hx]; simp)
  rw [h1, h2, h3, List.nil_append, List.append_nil]

/-- C4 (amended): over a page stream whose rows sorted descending place
the target-period rows as one contiguous block starting on the first
page, the issued-table scanner invokes Download Capture exactly once per
matching row that passes the row-validity heuristic, in table order (k
times when all matching rows are valid), and scans at most one page
beyond the pages covering the block: its page count is bounded by
paginasParaCobrir of the block's end plus one, and when no row matches it
scans only the first page. The claim as frozen is refuted by
c4_contraexemplo: a matching cancelled row is counted by the claim but
never handed to Download Capture. -/
theorem c4_teorema (alvo : String) (paginas : List Pagina) :
    ∀ (P B S : List LinhaTabela),
    (∀ pg ∈ paginas, pg ≠ []) →
    paginas.flatten = P ++ (B ++ S) →
    (∀ l ∈ P, corresponde alvo l = false) →
    (∀ l ∈ B, corresponde alvo l = true) →
    (∀ l ∈ S, corresponde alvo l = false) →
    (B ≠ [] → P.length < (paginas.headD []).length) →
    (processar_tabela_emitidas alvo paginas).1 = B.filter verificar_nota_valida ∧
    (B = [] → (processar_tabela_emitidas alvo paginas).2 ≤ 1) ∧
    (B ≠ [] → (processar_tabela_emitidas alvo paginas).2 ≤
        paginasParaCobrir (P.length + B.length) paginas + 1) := by
  induction paginas with
  | nil =>
    intro P B S hne hjoin hP hB hS hcomeco
    simp only [List.flatten_nil] at hjoin
    have h0 := hjoin.symm
    rw [List.append_eq_nil] at h0
    obtain ⟨hP0, h1⟩ := h0
    rw [List.append_eq_nil] at h1
    obtain ⟨hB0, hS0⟩ := h1
    subst hB0
    exact ⟨rfl, fun _ => Nat.zero_le 1, fun habs => absurd rfl habs⟩
  | cons pg resto ih =>
    intro P B S hne hjoin hP hB hS hcomeco
    have hpgne : ¬pg = [] := hne pg (List.mem_cons_self pg resto)
    have hnerest : ∀ q ∈ resto, q ≠ [] := fun q hq => hne q (List.mem_cons_of_mem pg hq)
    rw [List.flatten_cons] at hjoin
    rw [processar_emitidas_cons alvo pg resto hpgne]
    by_cases hBcase : B = []
    · subst hBcase
      rw [List.nil_append] at hjoin
      have hnenhuma : ∀ l ∈ pg, corresponde alvo l = false := by
        intro l hl
        have hmem : l ∈ P ++ S := by
          rw [← hjoin]
          exact List.mem_append.mpr (Or.inl hl)
        rcases List.mem_append.mp hmem with h | h
        · exact hP l h
        · exact hS l h
      have hfil : pg.filter (fun l => corresponde alvo l && verificar_nota_valida l) = [] :=
        List.filter_eq_nil_iff.mpr (fun a ha => by rw [hnenhuma a ha]; simp)
      have hany : pg.any (corresponde alvo) = false :=
        List.any_eq_false.mpr (fun x hx => by rw [hnenhuma x hx]; simp)
      rw [if_neg (by rw [hany]; simp)]
      exact ⟨hfil.trans rfl, fun _ => Nat.le_refl 1, fun habs => absurd rfl habs⟩
    · have hlen : P.length < pg.length := by
        have h := hcomeco hBcase
        simpa using h
      rcases List.append_eq_append_iff.mp hjoin with ⟨a2, hPa, _⟩ | ⟨c2, hpg, hbs⟩
      · exfalso
        have : pg.length ≤ P.length := by rw [hPa]; simp
        omega
      · subst hpg
        have hc2ne : c2 ≠ [] := by
          intro h0
          subst h0
          simp at hlen
        rcases List.append_eq_append_iff.mp hbs with ⟨s1, hc2B, hSeq⟩ | ⟨b2, hBeq, hjrest⟩
        · by_cases hs1 : s1 = []
          · subst hs1
            rw [List.append_nil] at hc2B
            subst hc2B
            rw [List.nil_append] at hSeq
            subst hSeq
            have hlast : corresponde alvo ((P ++ c2).getLast hpgne) = true := by
              rw [List.getLast_append_of_ne_nil hBcase]
              exact hB _ (List.getLast_mem hBcase)
            have hany : (P ++ c2).any (corresponde alvo) = true :=
              List.any_eq_true.mpr
                ⟨c2.getLast hBcase,
                 List.mem_append.mpr (Or.inr (List.getLast_mem hBcase)),
                 hB _ (List.getLast_mem hBcase)⟩
            have hfil := filtro_bloco2 alvo P c2 hP hB
            by_cases hre : resto = []
            · subst hre
              rw [if_neg (by simp)]
              exact ⟨hfil, fun h0 => absurd h0 hBcase,
                fun _ => Nat.succ_le_succ (Nat.zero_le _)⟩
            · rw [if_pos (by rw [hany, hlast]; simp [hre])]
              obtain ⟨ih1, ih2, _⟩ := ih [] [] resto.flatten hnerest (by simp) (by simp)
                (by simp) hS (fun h0 => absurd rfl h0)
              simp only [List.filter_nil] at ih1
              refine ⟨?_, fun h0 => absurd h0 hBcase, fun _ => ?_⟩
              · show (P ++ c2).filter (fun l => corresponde alvo l && verificar_nota_valida l) ++
                  (processar_tabela_emitidas alvo resto).1 = List.filter verificar_nota_valida c2
                rw [hfil, ih1, List.append_nil]
              · rw [paginasParaCobrir_cons]
                rw [if_pos (by simp [List.length_append])]
                have h2 := ih2 rfl
                show 1 + (processar_tabela_emitidas alvo resto).2 ≤ 1 + 1
                omega
          · subst hc2B
            subst hSeq
            have hBs1ne : B ++ s1 ≠ [] := by
              intro h0
              rw [List.append_eq_nil] at h0
              exact hs1 h0.2
            have hlast : corresponde alvo ((P ++ (B ++ s1)).getLast hpgne) = false := by
              rw [List.getLast_append_of_ne_nil hBs1ne, List.getLast_append_of_ne_nil hs1]
              exact hS _ (List.mem_append.mpr (Or.inl (List.getLast_mem hs1)))
            have hS1sub : ∀ l ∈ s1, corresponde alvo l = false :=
              fun l hl => hS l (List.mem_append.mpr (Or.inl hl))
            rw [if_neg (by rw [hlast]; simp)]
            exact ⟨filtro_bloco3 alvo P B s1 hP hB hS1sub,
              fun h0 => absurd h0 hBcase, fun _ => Nat.succ_le_succ (Nat.zero_le _)⟩
        · by_cases hb2 : b2 = []
          · subst hb2
            rw [List.append_nil] at hBeq
            subst hBeq
            rw [List.nil_append] at hjrest
            have hSsub : ∀ l ∈ resto.flatten, corresponde alvo l = false := by
              intro l hl
              rw [hjrest] at hl
              exact hS l hl
            have hlast : corresponde alvo ((P ++ B).getLast hpgne) = true := by
              rw [List.getLast_append_of_ne_nil hBcase]
              exact hB _ (List.getLast_mem hBcase)
            have hany : (P ++ B).any (corresponde alvo) = true :=
              List.any_eq_true.mpr
                ⟨B.getLast hBcase,
                 List.mem_append.mpr (Or.inr (List.getLast_mem hBcase)),
                 hB _ (List.getLast_mem hBcase)⟩
            have hfil := filtro_bloco2 alvo P B hP hB
            by_cases hre : resto = []
            · subst hre
              rw [if_neg (by simp)]
              exact ⟨hfil, fun h0 => absurd h0 hBcase,
                fun _ => Nat.succ_le_succ (Nat.zero_le _)⟩
            · rw [if_pos (by rw [hany, hlast]; simp [hre])]
              obtain ⟨ih1, ih2, _⟩ := ih [] [] resto.flatten hnerest (by simp) (by simp)
                (by simp) hSsub (fun h0 => absurd rfl h0)
              simp only [List.filter_nil] at ih1
              refine ⟨?_, fun h0 => absurd h0 hBcase, fun _ => ?_⟩
              · show (P ++ B).filter (fun l => corresponde alvo l && verificar_nota_valida l) ++
                  (processar_tabela_emitidas alvo resto).1 = List.filter verificar_nota_valida B
                rw [hfil, ih1, List.append_nil]
              · rw [paginasParaCobrir_cons]
                rw [if_pos (by simp [List.length_append])]
                have h2 := ih2 rfl
                show 1 + (processar_tabela_emitidas alvo resto).2 ≤ 1 + 1
                omega
          · subst hBeq
            have hc2sub : ∀ l ∈ c2, corresponde alvo l = true :=
              fun l hl => hB l (List.mem_append.mpr (Or.inl hl))
            have hb2sub : ∀ l ∈ b2, corresponde alvo l = true :=
              fun l hl => hB l (List.mem_append.mpr (Or.inr hl))
            have hrestne : resto ≠ [] := by
              intro h0
              subst h0
              simp only [List.flatten_nil] at hjrest
              have h1 := hjrest.symm
              rw [List.append_eq_nil] at h1
              exact hb2 h1.1
            have hlast : corresponde alvo ((P ++ c2).getLast hpgne) = true := by
              rw [List.getLast_append_of_ne_nil hc2ne]
              exact hc2sub _ (List.getLast_mem hc2ne)
            have hany : (P ++ c2).any (corresponde alvo) = true :=
              List.any_eq_true.mpr
                ⟨c2.getLast hc2ne,
                 List.mem_append.mpr (Or.inr (List.getLast_mem hc2ne)),
                 hc2sub _ (List.getLast_mem hc2ne)⟩
            rw [if_pos (by rw [hany, hlast]; simp [hrestne])]
            have hhead : 0 < (resto.headD []).length := by
              cases resto with
              | nil => exact absurd rfl hrestne
              | cons q qs =>
                have hq := hnerest q (List.mem_cons_self q qs)
                simpa [List.length_pos] using hq
            obtain ⟨ih1, _, ih3⟩ := ih [] b2 S hnerest (by simpa using hjrest) (by simp)
              hb2sub hS (fun _ => hhead)
            have hfil := filtro_bloco2 alvo P c2 hP hc2sub
            have hb2pos : 0 < b2.length := List.length_pos.mpr hb2
            have hlc : (P ++ c2).length = P.length + c2.length := List.length_append P c2
            have hlcb : (c2 ++ b2).length = c2.length + b2.length := List.length_append c2 b2
            refine ⟨?_, fun h0 => absurd h0 hBcase, fun _ => ?_⟩
            · show (P ++ c2).filter (fun l => corresponde alvo l && verificar_nota_valida l) ++
                (processar_tabela_emitidas alvo resto).1 =
                List.filter verificar_nota_valida (c2 ++ b2)
              rw [hfil, ih1, ← List.filter_append]
            · rw [paginasParaCobrir_cons]
              have hnle : ¬(P.length + (c2 ++ b2).length ≤ (P ++ c2).length) := by
                rw [hlc, hlcb]
                omega
              rw [if_neg hnle]
              have hsub : P.length + (c2 ++ b2).length - (P ++ c2).length = b2.length := by
                rw [hlc, hlcb]
                omega
              rw [hsub]
              have h3 := ih3 hb2
              simp only [List.length_nil, Nat.zero_add] at h3
              show 1 + (processar_tabela_emitidas alvo resto).2 ≤
                1 + paginasParaCobrir b2.length resto + 1
              omega

theorem string_vazia_de_data (s : String) (h : s.data = []) : s = "" := by
  cases s with
  | mk l =>
    have h2 : l = [] := h
    subst h2
    rfl

theorem string_data_append (a b : String) : (a ++ b).data = a.data ++ b.data := by
  cases a
  cases b
  rfl

theorem string_append_nao_vazia (a b : String) (h : a ≠ "") : a ++ b ≠ "" := by
  intro h0
  apply h
  have hd := congrArg String.data h0
  rw [string_data_append] at hd
  simp only at hd
  rw [List.append_eq_nil] at hd
  exact string_vazia_de_data a hd.1

theorem falhar_execucao_campos (e : ExecucaoInfo) (exc : Excecao) :
    (falhar_execucao e exc).status = StatusExecucao.falhou ∧
    (falhar_execucao e exc).etapa_atual = e.etapa_atual ∧
    (∃ m, (falhar_execucao e exc).erro = some m ∧ m ≠ "") := by
  unfold falhar_execucao
  by_cases h : (exc.deAutenticacao || contemSub (minusculaStr exc.msg) "autenticação") = true
  · refine ⟨?_, ?_, ?_⟩
    · simp [h, adicionar_log]
    · simp [h, adicionar_log]
    · refine ⟨"Erro de autenticação: " ++ exc.msg, ?_, ?_⟩
      · simp [h, adicionar_log]
      · exact string_append_nao_vazia "Erro de autenticação: " exc.msg (by decide)
  · refine ⟨?_, ?_, ?_⟩
    · simp [h, adicionar_log]
    · simp [h, adicionar_log]
    · refine ⟨"Erro na etapa " ++ etapaValor e.etapa_atual ++ ": " ++ exc.msg, ?_, ?_⟩
      · simp [h, adicionar_log]
      · exact string_append_nao_vazia _ exc.msg
          (string_append_nao_vazia _ ": "
            (string_append_nao_vazia "Erro na etapa " (etapaValor e.etapa_atual) (by decide)))

theorem limpar_recursos_preserva (e : ExecucaoInfo) :
    (limpar_recursos e).1.status = e.status ∧
    (limpar_recursos e).1.etapa_atual = e.etapa_atual ∧
    (limpar_recursos e).1.erro = e.erro ∧
    (limpar_recursos e).1.page = e.page ∧
    (limpar_recursos e).1.context = e.context ∧
    (limpar_recursos e).1.browser = e.browser ∧
    (limpar_recursos e).1.playwright = e.playwright ∧
    (limpar_recursos e).1.progresso = e.progresso ∧
    (limpar_recursos e).1.mensagem = e.mensagem := by
  by_cases h : e.headless = true
  · simp [limpar_recursos, adicionar_log, h]
  · simp only [Bool.not_eq_true] at h
    simp [limpar_recursos, adicionar_log, h]

theorem buscar_atualizar_mesma (m : List (String × ExecucaoInfo)) (k : String) (v : ExecucaoInfo) :
    buscarAtiva (atualizarAtivas m k v) k = some v := by
  induction m with
  | nil => simp [atualizarAtivas, buscarAtiva]
  | cons par resto ih =>
    obtain ⟨k', v'⟩ := par
    by_cases h : k' = k
    · simp [atualizarAtivas, buscarAtiva, h]
    · simp [atualizarAtivas, buscarAtiva, h, ih]

theorem abrir_sem_certificado (portal : Portal) (hcert : portal.certificadoEncontrado = false)
    (c : String) (hl : Bool) :
    abrir_dashboard_nfse portal c hl =
      Except.error
        (Excecao.mk true
          ("Erro durante automação NFSe: Certificado não encontrado para CNPJ " ++ c)) := by
  unfold abrir_dashboard_nfse
  rw [hcert]
  simp

theorem nucleo_sem_certificado (portal : Portal) (e0 : ExecucaoInfo)
    (hcert : portal.certificadoEncontrado = false) :
    (executar_fluxo_nucleo portal e0).execucao.status = StatusExecucao.falhou ∧
    (executar_fluxo_nucleo portal e0).execucao.etapa_atual = EtapaExecucao.autenticacao ∧
    (∃ m, (executar_fluxo_nucleo portal e0).execucao.erro = some m ∧ m ≠ "") ∧
    (executar_fluxo_nucleo portal e0).notasEmitidasBaixadas = [] ∧
    (executar_fluxo_nucleo portal e0).notasRecebidasBaixadas = [] := by
  simp only [executar_fluxo_nucleo]
  split
  · exact ⟨(falhar_execucao_campos _ _).1, ((falhar_execucao_campos _ _).2.1).trans rfl,
      (falhar_execucao_campos _ _).2.2, rfl, rfl⟩
  · split
    · exact ⟨(falhar_execucao_campos _ _).1, ((falhar_execucao_campos _ _).2.1).trans rfl,
        (falhar_execucao_campos _ _).2.2, rfl, rfl⟩
    · rw [abrir_sem_certificado portal hcert]
      exact ⟨(falhar_execucao_campos _ _).1, ((falhar_execucao_campos _ _).2.1).trans rfl,
        (falhar_execucao_campos _ _).2.2, rfl, rfl⟩

/-- C1 (counterexample): runs through the full flow still hold their
transient browser-handle references after the Finalizing cleanup. A
non-headless run completes and keeps all four handle fields set (and its
resources are not even closed); a headless run — which fails at the
processing stage because the authentication helper already closed its
handles — also keeps its handle fields set. In neither mode are the
fields cleared to null, refuting the claim. -/
theorem c1_contraexemplo :
    (execucaoNaoHeadless.headless = false ∧
     (executar_fluxo_completo portalDoCenario execucaoNaoHeadless).execucao.status =
       StatusExecucao.concluido ∧
     (executar_fluxo_completo portalDoCenario execucaoNaoHeadless).execucao.page = some 1 ∧
     (executar_fluxo_completo portalDoCenario execucaoNaoHeadless).execucao.page ≠ none ∧
     (executar_fluxo_completo portalDoCenario execucaoNaoHeadless).execucao.context ≠ none ∧
     (executar_fluxo_completo portalDoCenario execucaoNaoHeadless).execucao.browser ≠ none ∧
     (executar_fluxo_completo portalDoCenario execucaoNaoHeadless).execucao.playwright ≠ none) ∧
    (execucaoDoCenario.headless = true ∧
     (executar_fluxo_completo portalDoCenario execucaoDoCenario).execucao.page = some 1 ∧
     (executar_fluxo_completo portalDoCenario execucaoDoCenario).execucao.page ≠ none) := by
  decide

/-- C1 (amended): the Finalizing cleanup never resets the transient
handle fields — after limpar_recursos every handle field equals its value
before cleanup; what the cleanup does is close the held resources, and
only in headless mode: a handle is closed exactly when the run is
headless and some field holds it, and a non-headless run closes
nothing. -/
theorem c1_teorema (e : ExecucaoInfo) :
    ((limpar_recursos e).1.page = e.page ∧ (limpar_recursos e).1.context = e.context ∧
     (limpar_recursos e).1.browser = e.browser ∧ (limpar_recursos e).1.playwright = e.playwright) ∧
    (e.headless = false → (limpar_recursos e).2 = []) ∧
    (∀ h, h ∈ (limpar_recursos e).2 ↔
      (e.headless = true ∧ some h ∈ [e.page, e.context, e.browser, e.playwright])) := by
  by_cases hh : e.headless = true
  · refine ⟨⟨?_, ?_, ?_, ?_⟩, ?_, ?_⟩
    all_goals simp [limpar_recursos, adicionar_log, hh, List.mem_filterMap]
  · simp only [Bool.not_eq_true] at hh
    refine ⟨⟨?_, ?_, ?_, ?_⟩, ?_, ?_⟩
    all_goals simp [limpar_recursos, adicionar_log, hh]

/-- C1 (witness): the amended statement evaluated on a concrete headless
run holding the four handles. -/
theorem c1_testemunha :
    ((limpar_recursos execucaoComRecursos).1.page = execucaoComRecursos.page ∧
     (limpar_recursos execucaoComRecursos).1.context = execucaoComRecursos.context ∧
     (limpar_recursos execucaoComRecursos).1.browser = execucaoComRecursos.browser ∧
     (limpar_recursos execucaoComRecursos).1.playwright = execucaoComRecursos.playwright) ∧
    (execucaoComRecursos.headless = false → (limpar_recursos execucaoComRecursos).2 = []) ∧
    (∀ h, h ∈ (limpar_recursos execucaoComRecursos).2 ↔
      (execucaoComRecursos.headless = true ∧
        some h ∈ [execucaoComRecursos.page, execucaoComRecursos.context,
          execucaoComRecursos.browser, execucaoComRecursos.playwright])) :=
  c1_teorema execucaoComRecursos

/-- C2 (counterexample): the extension derivation is not independent of
the header — a payload beginning with the PDF magic is classified .xml
when the content-type header mentions xml, and a payload beginning with
the XML declaration is classified .pdf when the header mentions pdf. -/
theorem c2_contraexemplo :
    "%PDF".data.isPrefixOf conteudoPDF = true ∧
    detectar_extensao_download_direto "text/xml" conteudoPDF = ".xml" ∧
    detectar_extensao_download_direto "text/xml" conteudoPDF ≠ ".pdf" ∧
    "<?xml".data.isPrefixOf conteudoXML = true ∧
    detectar_extensao_download_direto "application/pdf" conteudoXML = ".pdf" ∧
    detectar_extensao_download_direto "application/pdf" conteudoXML ≠ ".xml" := by
  decide

theorem isPrefixOf_proprio_append (pat resto : List Char) :
    pat.isPrefixOf (pat ++ resto) = true := by
  rw [ List.isPrefixOf_iff_prefix]
  exact List.prefix_append pat resto

theorem sniff_pdf (t : List Char) :
    (if ("<?xml".data.isPrefixOf (List.take 10 ("%PDF".data ++ t)) ||
         "<".data.isPrefixOf (List.take 10 ("%PDF".data ++ t))) = true then ".xml"
     else if "%PDF".data.isPrefixOf (List.take 10 ("%PDF".data ++ t)) = true then ".pdf"
     else ".bin") = ".pdf" := by
  have hcond : ("<?xml".data.isPrefixOf (List.take 10 ("%PDF".data ++ t)) ||
      "<".data.isPrefixOf (List.take 10 ("%PDF".data ++ t))) = false := rfl
  rw [if_neg (by rw [hcond]; simp)]
  have htake : List.take 10 ("%PDF".data ++ t) =
      "%PDF".data ++ List.take (10 - "%PDF".data.length) t := by
    rw [List.take_append_eq_append_take, List.take_of_length_le (by decide)]
  rw [htake, if_pos (isPrefixOf_proprio_append _ _)]

theorem sniff_xml (t : List Char) :
    (if ("<?xml".data.isPrefixOf (List.take 10 ("<?xml".data ++ t)) ||
         "<".data.isPrefixOf (List.take 10 ("<?xml".data ++ t))) = true then ".xml"
     else if "%PDF".data.isPrefixOf (List.take 10 ("<?xml".data ++ t)) = true then ".pdf"
     else ".bin") = ".xml" := by
  have htake : List.take 10 ("<?xml".data ++ t) =
      "<?xml".data ++ List.take (10 - "<?xml".data.length) t := by
    rw [List.take_append_eq_append_take, List.take_of_length_le (by decide)]
  rw [htake, if_pos (by rw [isPrefixOf_proprio_append]; simp)]

/-- C2 (amended): the derivation is a pure function of the header and the
bytes, and byte sniffing decides only when the lowered header names
neither xml nor pdf: under such a header, a payload starting with the PDF
magic yields .pdf and a payload starting with the XML declaration yields
.xml; a header naming a type takes precedence over the payload. -/
theorem c2_teorema (contentType : String) (conteudo : List Char)
    (hxml : contemSub (minusculaStr contentType) "xml" = false)
    (hpdf : contemSub (minusculaStr contentType) "pdf" = false) :
    ("%PDF".data.isPrefixOf conteudo = true →
      detectar_extensao_download_direto contentType conteudo = ".pdf") ∧
    ("<?xml".data.isPrefixOf conteudo = true →
      detectar_extensao_download_direto contentType conteudo = ".xml") := by
  constructor
  · intro hp
    rw [ List.isPrefixOf_iff_prefix] at hp
    obtain ⟨t, ht⟩ := hp
    subst ht
    unfold detectar_extensao_download_direto
    simp only [hxml, hpdf, Bool.false_eq_true, ite_false, Option.isNone_none, Bool.true_or,
      ite_true]
    exact sniff_pdf t
  · intro hp
    rw [ List.isPrefixOf_iff_prefix] at hp
    obtain ⟨t, ht⟩ := hp
    subst ht
    unfold detectar_extensao_download_direto
    simp only [hxml, hpdf, Bool.false_eq_true, ite_false, Option.isNone_none, Bool.true_or,
      ite_true]
    exact sniff_xml t

/-- C2 (witness): the amended statement discharged on concrete payloads
under an absent header. -/
theorem c2_testemunha :
    detectar_extensao_download_direto "" conteudoPDF = ".pdf" ∧
    detectar_extensao_download_direto "" conteudoXML = ".xml" :=
  ⟨(c2_teorema "" conteudoPDF (by decide) (by decide)).1 (by decide),
   (c2_teorema "" conteudoXML (by decide) (by decide)).2 (by decide)⟩

/-- C3 (counterexample): the company/folder sanitizer is not idempotent:
on the input with a removed leading character before whitespace, the
first pass leaves a leading space that only the second pass strips. -/
theorem c3_contraexemplo :
    sanitizar_nome_pasta "? a" = " a" ∧
    sanitizar_nome_pasta (sanitizar_nome_pasta "? a") = "a" ∧
    sanitizar_nome_pasta (sanitizar_nome_pasta "? a") ≠ sanitizar_nome_pasta "? a" := by
  decide

/-- C3 (amended): the file-name sanitizer is idempotent, and the
company/folder sanitizer is idempotent from the second application on
(applying it three times equals applying it twice); full idempotence of
the folder sanitizer fails, as c3_contraexemplo shows. -/
theorem c3_teorema :
    (∀ s : String, sanitizar_nome_arquivo (sanitizar_nome_arquivo s) = sanitizar_nome_arquivo s) ∧
    (∀ s : String,
      sanitizar_nome_pasta (sanitizar_nome_pasta (sanitizar_nome_pasta s)) =
        sanitizar_nome_pasta (sanitizar_nome_pasta s)) := by
  constructor
  · intro s
    exact congrArg String.mk (arquivo_lista_idem s.data)
  · intro s
    exact congrArg String.mk (pasta_lista_tripla s.data)

/-- C4 (counterexample): a single page with a single row of the target
period marked cancelled satisfies the claim's premises with k equal to
one, yet Download Capture is invoked zero times, not once. -/
theorem c4_contraexemplo :
    corresponde "11/2025" linhaCancelada = true ∧
    (processar_tabela_emitidas "11/2025" [[linhaCancelada]]).1.length = 0 ∧
    (processar_tabela_emitidas "11/2025" [[linhaCancelada]]).1.length ≠ 1 := by
  decide

/-- C4 (witness): the amended statement discharged on a concrete
two-page stream whose block of three matching rows (one cancelled) ends
mid-way through the second page. -/
theorem c4_testemunha :
    (processar_tabela_emitidas "11/2025" paginasTeste).1 =
      List.filter verificar_nota_valida blocoTeste ∧
    (processar_tabela_emitidas "11/2025" paginasTeste).2 ≤
      paginasParaCobrir (List.length ([] : List LinhaTabela) + blocoTeste.length)
        paginasTeste + 1 :=
  ⟨(c4_teorema "11/2025" paginasTeste [] blocoTeste [linhaForaDoPeriodo] (by decide) (by decide)
      (by decide) (by decide) (by decide) (by decide)).1,
   (c4_teorema "11/2025" paginasTeste [] blocoTeste [linhaForaDoPeriodo] (by decide) (by decide)
      (by decide) (by decide) (by decide) (by decide)).2.2 (by decide)⟩

/-- C5 (counterexample): the end-to-end scenario (valid certificate, two
matching issued rows of which one is cancelled, no received rows,
headless) does not reach the claimed terminal state: the run does not
complete and the valid row's document pair is not written. -/
theorem c5_contraexemplo :
    corresponde "11/2025" linhaCancelada = true ∧
    verificar_nota_valida linhaCancelada = false ∧
    (executar_fluxo_completo portalDoCenario execucaoDoCenario).execucao.status ≠
      StatusExecucao.concluido ∧
    (executar_fluxo_completo portalDoCenario execucaoDoCenario).notasEmitidasBaixadas ≠
      [linhaEmitidaValida] := by
  decide

/-- C5 (code bug): in the headless scenario the finally block of
abrir_dashboard_nfse closes the browser handles before the worker uses
them, so the first page operation of the processing stage raises on a
closed page: the run terminates Failed at the issued-notes processing
stage with the closed-page error, zero documents are written in either
direction, and the queryable logs contain no entry about the skipped
cancelled row — instead of the Completed/one-pair/skip-note terminal
state the scenario specifies. -/
theorem c5_teorema :
    (executar_fluxo_completo portalDoCenario execucaoDoCenario).execucao.status =
      StatusExecucao.falhou ∧
    (executar_fluxo_completo portalDoCenario execucaoDoCenario).execucao.etapa_atual =
      EtapaExecucao.processamento_emitidas ∧
    (executar_fluxo_completo portalDoCenario execucaoDoCenario).execucao.erro =
      some ("Erro na etapa processamento_emitidas: " ++ msgPaginaFechada) ∧
    (executar_fluxo_completo portalDoCenario execucaoDoCenario).notasEmitidasBaixadas = [] ∧
    (executar_fluxo_completo portalDoCenario execucaoDoCenario).notasRecebidasBaixadas = [] ∧
    ((executar_fluxo_completo portalDoCenario execucaoDoCenario).execucao.logs.any
      (fun m => contemSub (minusculaStr m) "cancel" || contemSub (minusculaStr m) "pulando" ||
        contemSub (minusculaStr m) "inválida" || contemSub (minusculaStr m) "invalid")) =
      false := by
  decide

/-- C6 (confirmed): whenever the credential store has no certificate for
the run's tax id, the run terminates Failed with its stage still
Authenticating, a nonempty error message, and no document written in
either direction. -/
theorem c6_teorema (portal : Portal) (e0 : ExecucaoInfo)
    (hcert : portal.certificadoEncontrado = false) :
    (executar_fluxo_completo portal e0).execucao.status = StatusExecucao.falhou ∧
    (executar_fluxo_completo portal e0).execucao.etapa_atual = EtapaExecucao.autenticacao ∧
    (∃ m, (executar_fluxo_completo portal e0).execucao.erro = some m ∧ m ≠ "") ∧
    (executar_fluxo_completo portal e0).notasEmitidasBaixadas = [] ∧
    (executar_fluxo_completo portal e0).notasRecebidasBaixadas = [] := by
  obtain ⟨h1, h2, ⟨m, hm, hmne⟩, h4, h5⟩ := nucleo_sem_certificado portal e0 hcert
  obtain ⟨p1, p2, p3, _⟩ := limpar_recursos_preserva (executar_fluxo_nucleo portal e0).execucao
  refine ⟨?_, ?_, ⟨m, ?_, hmne⟩, h4, h5⟩
  · show (limpar_recursos (executar_fluxo_nucleo portal e0).execucao).1.status = _
    rw [p1, h1]
  · show (limpar_recursos (executar_fluxo_nucleo portal e0).execucao).1.etapa_atual = _
    rw [p2, h2]
  · show (limpar_recursos (executar_fluxo_nucleo portal e0).execucao).1.erro = some m
    rw [p3, hm]

/-- C6 (witness): the statement evaluated on a concrete run against an
environment whose credential store finds nothing. -/
theorem c6_testemunha :
    portalSemCertificado.certificadoEncontrado = false ∧
    ((executar_fluxo_completo portalSemCertificado execucaoDoCenario).execucao.status =
        StatusExecucao.falhou ∧
     (executar_fluxo_completo portalSemCertificado execucaoDoCenario).execucao.etapa_atual =
        EtapaExecucao.autenticacao ∧
     (∃ m, (executar_fluxo_completo portalSemCertificado execucaoDoCenario).execucao.erro =
        some m ∧ m ≠ "") ∧
     (executar_fluxo_completo portalSemCertificado execucaoDoCenario).notasEmitidasBaixadas =
        [] ∧
     (executar_fluxo_completo portalSemCertificado execucaoDoCenario).notasRecebidasBaixadas =
        []) :=
  ⟨rfl, c6_teorema portalSemCertificado execucaoDoCenario rfl⟩

/-- C7 (counterexample): a call whose direction argument is the empty
string is accepted: it enqueues the attempt and returns the account id,
so an empty required direction does not make enqueue fail. -/
theorem c7_contraexemplo :
    adicionar_execucao estadoVazio "1" "12345678901234" "112025" "" none false =
      Except.ok ("1",
        { fila := [novaExecucao "1" "12345678901234" "112025" "" none false],
          execucoes_ativas := [("1", novaExecucao "1" "12345678901234" "112025" "" none false)],
          rodando := true }) := by
  rfl

/-- C7 (amended): enqueue fails exactly when the account id, the tax id
or the period is empty — the direction is never validated — and on every
other input it appends a fresh attempt to the queue, stores it in the
status map and returns the account id; it never rejects a call because
an attempt for the account already exists. -/
theorem c7_teorema (s : EstadoService) (empresa_id cnpj competencia tipo : String)
    (headless : Option Bool) (padrao : Bool) :
    ((∃ msg, adicionar_execucao s empresa_id cnpj competencia tipo headless padrao =
        Except.error msg) ↔ (empresa_id = "" ∨ cnpj = "" ∨ competencia = "")) ∧
    (empresa_id ≠ "" → cnpj ≠ "" → competencia ≠ "" →
      adicionar_execucao s empresa_id cnpj competencia tipo headless padrao =
        Except.ok (empresa_id,
          { fila := s.fila ++ [novaExecucao empresa_id cnpj competencia tipo headless padrao],
            execucoes_ativas := atualizarAtivas s.execucoes_ativas empresa_id
              (novaExecucao empresa_id cnpj competencia tipo headless padrao),
            rodando := true })) := by
  constructor
  · constructor
    · rintro ⟨msg, hmsg⟩
      by_contra hcon
      push_neg at hcon
      obtain ⟨he, hc, hcomp⟩ := hcon
      unfold adicionar_execucao at hmsg
      rw [if_neg he, if_neg hc, if_neg hcomp] at hmsg
      simp at hmsg
    · intro h
      unfold adicionar_execucao
      rcases h with h | h | h
      · rw [if_pos h]
        exact ⟨_, rfl⟩
      · by_cases he : empresa_id = ""
        · rw [if_pos he]
          exact ⟨_, rfl⟩
        · rw [if_neg he, if_pos h]
          exact ⟨_, rfl⟩
      · by_cases he : empresa_id = ""
        · rw [if_pos he]
          exact ⟨_, rfl⟩
        · by_cases hc : cnpj = ""
          · rw [if_neg he, if_pos hc]
            exact ⟨_, rfl⟩
          · rw [if_neg he, if_neg hc, if_pos h]
            exact ⟨_, rfl⟩
  · intro he hc hcomp
    unfold adicionar_execucao
    rw [if_neg he, if_neg hc, if_neg hcomp]

/-- C7 (witness): the amended statement evaluated at a concrete call,
its error case exercised on the empty account id. -/
theorem c7_testemunha :
    adicionar_execucao estadoVazio "7" "12345678901234" "112025" "ambas" none false =
      Except.ok ("7",
        { fila := [novaExecucao "7" "12345678901234" "112025" "ambas" none false],
          execucoes_ativas := [("7", novaExecucao "7" "12345678901234" "112025" "ambas" none false)],
          rodando := true }) ∧
    (∃ msg, adicionar_execucao estadoVazio "" "12345678901234" "112025" "ambas" none false =
      Except.error msg) :=
  ⟨by
    have h := (c7_teorema estadoVazio "7" "12345678901234" "112025" "ambas" none false).2
      (by decide) (by decide) (by decide)
    simpa using h,
   (c7_teorema estadoVazio "" "12345678901234" "112025" "ambas" none false).1.mpr
     (Or.inl rfl)⟩

/-- C8 (confirmed): a status image with alt Cancelada marks the row
invalid, a row without status image is valid, alt Emitida is valid; in
general the heuristic reports invalid exactly when an image is present
and its lowered alt contains one of the alt cancellation keywords or its
lowered src contains one of the src keywords, defaulting to valid
otherwise. -/
theorem c8_teorema :
    verificar_nota_valida linhaCancelada = false ∧
    verificar_nota_valida linhaSemImagem = true ∧
    verificar_nota_valida linhaEmitidaValida = true ∧
    ∀ linha : LinhaTabela,
      (verificar_nota_valida linha = false ↔
        ∃ img, linha.imgStatus = some img ∧
          ((∃ a, img.alt = some a ∧
             (palavrasInvalidasAlt.any fun p => contemSub (minusculaStr a) p) = true) ∨
           (∃ s, img.src = some s ∧
             (palavrasInvalidasSrc.any fun p => contemSub (minusculaStr s) p) = true))) := by
  refine ⟨by decide, by decide, by decide, ?_⟩
  intro linha
  cases himg : linha.imgStatus with
  | none => simp [verificar_nota_valida, himg]
  | some img =>
    cases halt : img.alt with
    | none =>
      cases hsrc : img.src with
      | none => simp [verificar_nota_valida, himg, halt, hsrc]
      | some s => simp [verificar_nota_valida, himg, halt, hsrc]
    | some a =>
      cases hsrc : img.src with
      | none => simp [verificar_nota_valida, himg, halt, hsrc]
      | some s =>
        simp only [verificar_nota_valida, himg, halt, hsrc]
        simp [halt, hsrc]
        constructor
        · intro h
          by_cases ha : ∃ x ∈ palavrasInvalidasAlt, contemSub (minusculaStr a) x = true
          · exact Or.inl ha
          · refine Or.inr (h ?_)
            intro x hx
            by_contra hfx
            rw [Bool.not_eq_false] at hfx
            exact ha ⟨x, hx, hfx⟩
        · rintro (ha | hs)
          · intro hall
            obtain ⟨x, hx, hfx⟩ := ha
            rw [hall x hx] at hfx
            cases hfx
          · intro _
            exact hs

theorem obter_status_atualizada (fila : List ExecucaoInfo)
    (m : List (String × ExecucaoInfo)) (r : Bool) (k : String) (v : ExecucaoInfo) :
    obter_status { fila := fila, execucoes_ativas := atualizarAtivas m k v, rodando := r } k =
      some (montarStatus v) := by
  simp only [obter_status]
  rw [buscar_atualizar_mesma]

/-- C9 (confirmed): a second successful enqueue for the same account id
replaces the account's entry in the status map with the fresh attempt, so
getStatus afterwards returns exactly the newest attempt's snapshot —
status pendente, progress 0, empty logs — while the earlier attempt is
still behind it in the queue and will still be processed. -/
theorem c9_teorema (s0 : EstadoService) (eid cnpj1 comp1 tipo1 cnpj2 comp2 tipo2 : String)
    (h1 h2 : Option Bool) (padrao : Bool) (s1 s2 : EstadoService)
    (hadd1 : adicionar_execucao s0 eid cnpj1 comp1 tipo1 h1 padrao = Except.ok (eid, s1))
    (hadd2 : adicionar_execucao s1 eid cnpj2 comp2 tipo2 h2 padrao = Except.ok (eid, s2)) :
    obter_status s2 eid = some (montarStatus (novaExecucao eid cnpj2 comp2 tipo2 h2 padrao)) ∧
    (montarStatus (novaExecucao eid cnpj2 comp2 tipo2 h2 padrao)).status = "pendente" ∧
    (montarStatus (novaExecucao eid cnpj2 comp2 tipo2 h2 padrao)).progresso = 0 ∧
    (montarStatus (novaExecucao eid cnpj2 comp2 tipo2 h2 padrao)).logs = [] ∧
    s2.fila = s0.fila ++ [novaExecucao eid cnpj1 comp1 tipo1 h1 padrao,
      novaExecucao eid cnpj2 comp2 tipo2 h2 padrao] := by
  unfold adicionar_execucao at hadd1 hadd2
  by_cases he : eid = ""
  · rw [if_pos he] at hadd1
    simp at hadd1
  rw [if_neg he] at hadd1 hadd2
  by_cases hc1 : cnpj1 = ""
  · rw [if_pos hc1] at hadd1
    simp at hadd1
  rw [if_neg hc1] at hadd1
  by_cases hp1 : comp1 = ""
  · rw [if_pos hp1] at hadd1
    simp at hadd1
  rw [if_neg hp1] at hadd1
  by_cases hc2 : cnpj2 = ""
  · rw [if_pos hc2] at hadd2
    simp at hadd2
  rw [if_neg hc2] at hadd2
  by_cases hp2 : comp2 = ""
  · rw [if_pos hp2] at hadd2
    simp at hadd2
  rw [if_neg hp2] at hadd2
  simp only [Except.ok.injEq, Prod.mk.injEq, true_and] at hadd1 hadd2
  subst hadd1
  subst hadd2
  refine ⟨?_, rfl, rfl, rfl, ?_⟩
  · exact obter_status_atualizada _ _ _ _ _
  · show (s0.fila ++ [novaExecucao eid cnpj1 comp1 tipo1 h1 padrao]) ++
      [novaExecucao eid cnpj2 comp2 tipo2 h2 padrao] = _
    exact (List.append_assoc _ _ _).trans rfl

/-- C9 (witness): two concrete enqueues for the same account id, the
snapshot and queue inspected afterwards. -/
theorem c9_testemunha :
    obter_status
        { fila := [novaExecucao "1" "11111111111111" "112025" "ambas" none false,
            novaExecucao "1" "22222222222222" "122025" "emitidas" (some true) false],
          execucoes_ativas :=
            [("1", novaExecucao "1" "22222222222222" "122025" "emitidas" (some true) false)],
          rodando := true } "1" =
      some (montarStatus (novaExecucao "1" "22222222222222" "122025" "emitidas" (some true)
        false)) ∧
    (montarStatus (novaExecucao "1" "22222222222222" "122025" "emitidas" (some true)
      false)).status = "pendente" ∧
    (montarStatus (novaExecucao "1" "22222222222222" "122025" "emitidas" (some true)
      false)).progresso = 0 ∧
    (montarStatus (novaExecucao "1" "22222222222222" "122025" "emitidas" (some true)
      false)).logs = [] ∧
    ({ fila := [novaExecucao "1" "11111111111111" "112025" "ambas" none false,
        novaExecucao "1" "22222222222222" "122025" "emitidas" (some true) false],
       execucoes_ativas :=
         [("1", novaExecucao "1" "22222222222222" "122025" "emitidas" (some true) false)],
       rodando := true } : EstadoService).fila =
      estadoVazio.fila ++ [novaExecucao "1" "11111111111111" "112025" "ambas" none false,
        novaExecucao "1" "22222222222222" "122025" "emitidas" (some true) false] :=
  c9_teorema estadoVazio "1" "11111111111111" "112025" "ambas" "22222222222222" "122025"
    "emitidas" none (some true) false
    { fila := [novaExecucao "1" "11111111111111" "112025" "ambas" none false],
      execucoes_ativas := [("1", novaExecucao "1" "11111111111111" "112025" "ambas" none false)],
      rodando := true }
    { fila := [novaExecucao "1" "11111111111111" "112025" "ambas" none false,
        novaExecucao "1" "22222222222222" "122025" "emitidas" (some true) false],
      execucoes_ativas :=
        [("1", novaExecucao "1" "22222222222222" "122025" "emitidas" (some true) false)],
      rodando := true }
    rfl rfl

/-- C10 (confirmed): the worker's period conversion maps every
six-character all-digit competência MMAAAA to MM/AAAA — the first two
characters, a slash, then the remaining four — and leaves every other
competência string verbatim as the scan target. -/
theorem c10_teorema :
    (∀ c : String, c.length = 6 → c.data.all Char.isDigit = true →
      ∃ mm aaaa : List Char, c.data = mm ++ aaaa ∧ mm.length = 2 ∧ aaaa.length = 4 ∧
        (converter_competencia c).data = mm ++ '/' :: aaaa) ∧
    (∀ c : String, ¬(c.length = 6 ∧ c.data.all Char.isDigit = true) →
      converter_competencia c = c) := by
  constructor
  · intro c h6 hd
    have hlen : c.data.length = 6 := h6
    refine ⟨c.data.take 2, c.data.drop 2, (List.take_append_drop 2 c.data).symm, ?_, ?_, ?_⟩
    · rw [List.length_take, hlen]
      decide
    · rw [List.length_drop, hlen]
    · unfold converter_competencia
      rw [if_pos (by simp [h6, hd])]
  · intro c hneg
    unfold converter_competencia
    rw [if_neg ?hcond]
    case hcond =>
      simp only [Bool.and_eq_true, beq_iff_eq]
      exact hneg

/-- C10 (witness): the conversion evaluated on a six-digit competência
and on one already containing a slash. -/
theorem c10_testemunha :
    ("112025".length = 6 ∧ "112025".data.all Char.isDigit = true) ∧
    (∃ mm aaaa : List Char, "112025".data = mm ++ aaaa ∧ mm.length = 2 ∧ aaaa.length = 4 ∧
      (converter_competencia "112025").data = mm ++ '/' :: aaaa) ∧
    ¬("11/2025".length = 6 ∧ "11/2025".data.all Char.isDigit = true) ∧
    converter_competencia "11/2025" = "11/2025" :=
  ⟨by decide, c10_teorema.1 "112025" (by decide) (by decide),
   by decide, c10_teorema.2 "11/2025" (by decide)⟩
